import Mathlib

/-!
Shallow embedding of `acs_driver.go` from the
`kontainer-engine-driver-cloudstack` repository: a Rancher
kontainer-engine driver that provisions CloudStack virtual machines.

Go structs become Lean structures; pointer-returning Go functions that
may return `nil` become `Option`-valued functions; Go `error` values
become `Option String` (the message built by `fmt.Errorf`); the external
CloudStack API call `DeployVirtualMachine` becomes an oracle parameter
`deploy : DeployVirtualMachineParams → Except String
DeployVirtualMachineResponse`; text written to standard output with
`fmt.Printf` is collected in an `output` list.
-/

namespace AcsDriver

/-- Models `types.DriverOptions` from the kontainer-engine library: the
option bag the orchestration host passes to the driver, with one map per
declared value type (only the string and integer maps are read by this
driver). -/
structure DriverOptions where
  stringOptions : List (String × String) := []
  intOptions : List (String × Int) := []
deriving Repr, DecidableEq

/-- Models `options.GetValueFromDriverOptions` (kontainer-engine library)
specialised to `types.StringType`: the keys are tried in order against the
string map and the first present value is returned; when every key is
absent the zero value `""` is returned. -/
def getStringOption (opts : DriverOptions) : List String → String
  | [] => ""
  | k :: rest =>
    match opts.stringOptions.lookup k with
    | some v => v
    | none => getStringOption opts rest

/-- Models `options.GetValueFromDriverOptions` (kontainer-engine library)
specialised to `types.IntType`: first present key wins, absence yields the
zero value `int64(0)`. -/
def getIntOption (opts : DriverOptions) : List String → Int
  | [] => 0
  | k :: rest =>
    match opts.intOptions.lookup k with
    | some v => v
    | none => getIntOption opts rest

/-- Models `types.ClusterInfo` from the kontainer-engine library: the
host-owned metadata record threaded through every lifecycle call. The Go
zero value `types.ClusterInfo\x7b\x7d` corresponds to the default value of
this structure. -/
structure ClusterInfo where
  version : String := ""
  serviceAccountToken : String := ""
  endpoint : String := ""
  username : String := ""
  password : String := ""
  rootCaCertificate : String := ""
  clientCertificate : String := ""
  clientKey : String := ""
  nodeCount : Int := 0
  metadata : List (String × String) := []
deriving Repr, DecidableEq

/-- `Config` — Cloudstack Configurations (`acs_driver.go`). -/
structure Config where
  EndPoint : String := ""
  Access : String := ""
  Secret : String := ""
deriving Repr, DecidableEq

/-- `AcsSettings` — Basic configs to Cloudstack (`acs_driver.go`). The Go
struct embeds `Config`; the embedded struct is the `config` field here. -/
structure AcsSettings where
  SSHKeyPair : String := ""
  ProjectID : String := ""
  UsePrivateIP : Bool := false
  ServiceOffering : String := ""
  TemplateID : String := ""
  ZoneID : String := ""
  NetworkID : String := ""
  UserData : String := ""
  config : Config := {}
deriving Repr, DecidableEq

/-- `state` (`acs_driver.go`): the per-Create resolved configuration. The
Go struct embeds `AcsSettings`; the embedded struct is the `acsSettings`
field here. -/
structure state where
  ClusterName : String := ""
  Description : String := ""
  InitialNodeCount : Int := 0
  acsSettings : AcsSettings := {}
  ClusterInfo : ClusterInfo := {}
deriving Repr, DecidableEq

/-- Models `cloudstack.CloudStackClient` as constructed by
`cloudstack.NewClient(apiurl, apikey, secret, verifyssl)`: the handle
records exactly the four construction arguments. -/
structure CloudStackClient where
  apiURL : String
  apiKey : String
  secretKey : String
  verifySSL : Bool
deriving Repr, DecidableEq

/-- `acsConn` (`acs_driver.go` lines 220-223): builds a client from the
settings with the verify-ssl argument fixed to the literal `false`, and
returns it with a nil error. `cloudstack.NewClient` always returns a
non-nil pointer, modelled as `some`. -/
def acsConn (c : AcsSettings) : Option CloudStackClient × Option String :=
  (some { apiURL := c.config.EndPoint, apiKey := c.config.Access,
          secretKey := c.config.Secret, verifySSL := false }, none)

/-- Models `cloudstack.DeployVirtualMachineParams`: the three required
constructor arguments plus the optional fields this driver sets. Unset
optional fields are `none`. -/
structure DeployVirtualMachineParams where
  serviceofferingid : String
  templateid : String
  zoneid : String
  displayname : Option String := none
  name : Option String := none
  networkids : Option (List String) := none
  projectid : Option String := none
deriving Repr, DecidableEq

/-- Models `cs.VirtualMachine.NewDeployVirtualMachineParams
(serviceofferingid, templateid, zoneid)`. -/
def NewDeployVirtualMachineParams (so ti zo : String) : DeployVirtualMachineParams :=
  { serviceofferingid := so, templateid := ti, zoneid := zo }

/-- Models `p.SetDisplayname`. -/
def SetDisplayname (p : DeployVirtualMachineParams) (v : String) : DeployVirtualMachineParams :=
  { p with displayname := some v }

/-- Models `p.SetName`. -/
def SetName (p : DeployVirtualMachineParams) (v : String) : DeployVirtualMachineParams :=
  { p with name := some v }

/-- Models `p.SetNetworkids`. -/
def SetNetworkids (p : DeployVirtualMachineParams) (v : List String) : DeployVirtualMachineParams :=
  { p with networkids := some v }

/-- Models `p.SetProjectid`. -/
def SetProjectid (p : DeployVirtualMachineParams) (v : String) : DeployVirtualMachineParams :=
  { p with projectid := some v }

/-- Models `p.SetServiceofferingid`. -/
def SetServiceofferingid (p : DeployVirtualMachineParams) (v : String) : DeployVirtualMachineParams :=
  { p with serviceofferingid := v }

/-- Models `p.SetTemplateid`. -/
def SetTemplateid (p : DeployVirtualMachineParams) (v : String) : DeployVirtualMachineParams :=
  { p with templateid := v }

/-- Models `p.SetZoneid`. -/
def SetZoneid (p : DeployVirtualMachineParams) (v : String) : DeployVirtualMachineParams :=
  { p with zoneid := v }

/-- Models `cloudstack.DeployVirtualMachineResponse`: the instance
descriptor returned by the provider; its contents are opaque to the
driver. -/
structure DeployVirtualMachineResponse where
  id : String := ""
  displayname : String := ""
deriving Repr, DecidableEq

/-- The deploy-virtual-machine request built inside `createInstance`
(`acs_driver.go` lines 198-208): the constructor call followed by the
seven setter calls, in source order. -/
def deployParamsFor (c : AcsSettings) (s : state) : DeployVirtualMachineParams :=
  let p := NewDeployVirtualMachineParams c.ServiceOffering c.TemplateID c.ZoneID
  let p := SetDisplayname p s.ClusterName
  let p := SetName p s.ClusterName
  let p := SetNetworkids p [c.NetworkID]
  let p := SetProjectid p c.ProjectID
  let p := SetServiceofferingid p c.ServiceOffering
  let p := SetTemplateid p c.TemplateID
  let p := SetZoneid p c.ZoneID
  p

/-- Result of `createInstance`: the returned descriptor pointer, the
returned error, and the lines printed to standard output. -/
structure CreateInstanceResult where
  vm : Option DeployVirtualMachineResponse
  err : Option String
  output : List String
deriving Repr, DecidableEq

/-- `createInstance` (`acs_driver.go` lines 190-218). `deploy` is the
oracle standing for the external call
`cs.VirtualMachine.DeployVirtualMachine(p)`; the Go call returns
`(nil, err)` on error and `(vm, nil)` on success. A deploy error is
printed with `fmt.Printf` and the function still returns `vm, nil`. -/
def createInstance
    (deploy : DeployVirtualMachineParams → Except String DeployVirtualMachineResponse)
    (c : AcsSettings) (s : state) : CreateInstanceResult :=
  match (acsConn c).2 with
  | some e => { vm := none, err := some e, output := [] }
  | none =>
    let p := deployParamsFor c s
    match deploy p with
    | .error e =>
        { vm := none, err := none,
          output := ["Error creating the new instance: " ++ e ++ "\n"] }
    | .ok vm =>
        { vm := some vm, err := none, output := ["Success create instances"] }

/-- `getStateFromOpts` (`acs_driver.go` lines 151-167): builds the state
record field by field from the option bag; always returns a nil error. -/
def getStateFromOpts (driverOptions : DriverOptions) : state × Option String :=
  let d : state := { ClusterInfo := { metadata := [] } }
  let d := { d with ClusterName := getStringOption driverOptions ["cluster-name", "ClusterName"] }
  let d := { d with Description := getStringOption driverOptions ["description", "Description"] }
  let d := { d with acsSettings := { d.acsSettings with
    config := { d.acsSettings.config with
      EndPoint := getStringOption driverOptions ["cloudstack-endpoint", "CloudstackEndPoint"] } } }
  let d := { d with acsSettings := { d.acsSettings with
    config := { d.acsSettings.config with
      Access := getStringOption driverOptions ["cloudstack-access"] } } }
  let d := { d with acsSettings := { d.acsSettings with
    config := { d.acsSettings.config with
      Secret := getStringOption driverOptions ["cloudstack-secret"] } } }
  let d := { d with InitialNodeCount := getIntOption driverOptions ["node-count", "InitialNodeCount"] }
  (d, none)

/-- Result of `Create`: the returned `ClusterInfo` pointer (nil on the
error paths), the returned error, and the lines printed to standard
output. -/
structure CreateResult where
  info : Option ClusterInfo
  err : Option String
  output : List String
deriving Repr, DecidableEq

/-- `Create` (`acs_driver.go` lines 112-149). The `ClusterInfo` argument
is ignored (it is the blank identifier in the Go signature); the project
creation step is commented out in the source and therefore absent here. -/
def Create
    (deploy : DeployVirtualMachineParams → Except String DeployVirtualMachineResponse)
    (opts : DriverOptions) (_info : ClusterInfo) : CreateResult :=
  match (getStateFromOpts opts).2 with
  | some e => { info := none, err := some e, output := [] }
  | none =>
    let st := (getStateFromOpts opts).1
    let info : ClusterInfo := {}
    let r := createInstance deploy st.acsSettings st
    match r.err with
    | some e => { info := some info, err := some e, output := r.output }
    | none => { info := some info, err := none, output := r.output }

/-- `Update` (`acs_driver.go` lines 226-228): returns the input
`ClusterInfo` and a nil error. -/
def Update (info : ClusterInfo) (_opts : DriverOptions) : ClusterInfo × Option String :=
  (info, none)

/-- `PostCheck` (`acs_driver.go` lines 231-233): returns the input
`ClusterInfo` and a nil error. -/
def PostCheck (info : ClusterInfo) : ClusterInfo × Option String :=
  (info, none)

/-- Models `types.NodeCount` from the kontainer-engine library. -/
structure NodeCount where
  count : Int := 0
deriving Repr, DecidableEq

/-- `Remove` (`acs_driver.go` lines 236-238): always
`fmt.Errorf("Not implemented")`. -/
def Remove (_info : ClusterInfo) : Option String :=
  some "Not implemented"

/-- `SetClusterSize` (`acs_driver.go` lines 258-260): always
`fmt.Errorf("Not implemented")`. -/
def SetClusterSize (_info : ClusterInfo) (_count : NodeCount) : Option String :=
  some "Not implemented"

/-- `ETCDSave` (`acs_driver.go` lines 274-276): always
`fmt.Errorf("Not implemented")`. -/
def ETCDSave (_info : ClusterInfo) (_opts : DriverOptions) (_snapshotName : String) : Option String :=
  some "Not implemented"

/-- `ETCDRemoveSnapshot` (`acs_driver.go` lines 284-286): always
`fmt.Errorf("Not implemented")`. -/
def ETCDRemoveSnapshot (_info : ClusterInfo) (_opts : DriverOptions) (_snapshotName : String) : Option String :=
  some "Not implemented"

/-- Models the capability constant `types.GetVersionCapability` from the
kontainer-engine library; the exact numeric value is immaterial to the
driver, only that the four constants are pairwise distinct. -/
def GetVersionCapability : Int := 1

/-- Models `types.SetVersionCapability`. -/
def SetVersionCapability : Int := 2

/-- Models `types.GetClusterSizeCapability`. -/
def GetClusterSizeCapability : Int := 3

/-- Models `types.SetClusterSizeCapability`. -/
def SetClusterSizeCapability : Int := 4

/-- Models `types.Capabilities`: a map from capability id to bool,
represented as an association list. -/
structure Capabilities where
  capabilityMap : List (Int × Bool)
deriving Repr, DecidableEq

/-- Models `(c *Capabilities).AddCapability(cap)`, which performs the map
assignment `c.Capabilities[cap] = true`. -/
def AddCapability (c : Capabilities) (cap : Int) : Capabilities :=
  { c with capabilityMap := (cap, true) :: c.capabilityMap.filter (fun kv => kv.1 != cap) }

/-- `ACSDriver` (`acs_driver.go` lines 50-52). -/
structure ACSDriver where
  driverCapabilities : Capabilities
deriving Repr, DecidableEq

/-- `NewDriver` (`acs_driver.go` lines 55-68): starts from an empty
capability map and adds the four capabilities in source order. -/
def NewDriver : ACSDriver :=
  let driver : ACSDriver := { driverCapabilities := { capabilityMap := [] } }
  let driver := { driver with
    driverCapabilities := AddCapability driver.driverCapabilities GetVersionCapability }
  let driver := { driver with
    driverCapabilities := AddCapability driver.driverCapabilities SetVersionCapability }
  let driver := { driver with
    driverCapabilities := AddCapability driver.driverCapabilities GetClusterSizeCapability }
  let driver := { driver with
    driverCapabilities := AddCapability driver.driverCapabilities SetClusterSizeCapability }
  driver

/-- The concrete option bag of the spec scenario: cluster-name "demo",
cloudstack-endpoint "http://cs.local", cloudstack-access "AK",
cloudstack-secret "SK", and no node-count. -/
def demoOpts : DriverOptions :=
  { stringOptions :=
      [("cluster-name", "demo"), ("cloudstack-endpoint", "http://cs.local"),
       ("cloudstack-access", "AK"), ("cloudstack-secret", "SK")],
    intOptions := [] }

/-- Helper: `getStateFromOpts` always returns a nil error. -/
theorem getStateFromOpts_noerr (opts : DriverOptions) : (getStateFromOpts opts).2 = none :=
  rfl

/-- Helper: `acsConn` always returns a nil error. -/
theorem acsConn_noerr (c : AcsSettings) : (acsConn c).2 = none :=
  rfl

/-- Helper: `createInstance` returns a nil error on every path. -/
theorem createInstance_err_none
    (deploy : DeployVirtualMachineParams → Except String DeployVirtualMachineResponse)
    (c : AcsSettings) (s : state) : (createInstance deploy c s).err = none := by
  cases hd : deploy (deployParamsFor c s) <;> simp [createInstance, acsConn, hd]

/-- C1: for every deploy attempt in which the underlying
DeployVirtualMachine call returns an error, `createInstance` prints the
error and returns a nil descriptor together with a nil error, and `Create`
still returns the freshly built empty `ClusterInfo` with a nil error: the
provisioning failure never reaches the caller as an error value. -/
theorem create_swallows_deploy_error
    (deploy : DeployVirtualMachineParams → Except String DeployVirtualMachineResponse)
    (opts : DriverOptions) (info : ClusterInfo) (e : String)
    (h : deploy (deployParamsFor (getStateFromOpts opts).1.acsSettings (getStateFromOpts opts).1)
      = Except.error e) :
    createInstance deploy (getStateFromOpts opts).1.acsSettings (getStateFromOpts opts).1 =
      { vm := none, err := none,
        output := ["Error creating the new instance: " ++ e ++ "\n"] } ∧
    Create deploy opts info =
      { info := some {}, err := none,
        output := ["Error creating the new instance: " ++ e ++ "\n"] } := by
  constructor
  · simp [createInstance, acsConn, h]
  · simp [Create, createInstance, acsConn, getStateFromOpts_noerr, h]

/-- Witness for C1: a concrete failing deploy oracle on the scenario
option bag. -/
theorem create_swallows_deploy_error_witness :
    (fun (_ : DeployVirtualMachineParams) =>
        (Except.error "deploy failed" : Except String DeployVirtualMachineResponse))
      (deployParamsFor (getStateFromOpts demoOpts).1.acsSettings (getStateFromOpts demoOpts).1)
      = Except.error "deploy failed" ∧
    Create (fun _ => Except.error "deploy failed") demoOpts {} =
      { info := some {}, err := none,
        output := ["Error creating the new instance: deploy failed\n"] } :=
  ⟨rfl, (create_swallows_deploy_error (fun _ => Except.error "deploy failed")
      demoOpts {} "deploy failed" rfl).2⟩

/-- C2: `getStateFromOpts` never assigns the CloudStack-specific settings
fields, so for every option bag the resulting state keeps their zero
values and the deploy request built from it has empty-string
service-offering id, template id, zone id, project id and a network-id
list whose single element is the empty string. -/
theorem getStateFromOpts_ignores_cloudstack_settings (opts : DriverOptions) :
    (getStateFromOpts opts).1.acsSettings.SSHKeyPair = "" ∧
    (getStateFromOpts opts).1.acsSettings.ProjectID = "" ∧
    (getStateFromOpts opts).1.acsSettings.UsePrivateIP = false ∧
    (getStateFromOpts opts).1.acsSettings.ServiceOffering = "" ∧
    (getStateFromOpts opts).1.acsSettings.TemplateID = "" ∧
    (getStateFromOpts opts).1.acsSettings.ZoneID = "" ∧
    (getStateFromOpts opts).1.acsSettings.NetworkID = "" ∧
    (getStateFromOpts opts).1.acsSettings.UserData = "" ∧
    (deployParamsFor (getStateFromOpts opts).1.acsSettings (getStateFromOpts opts).1).serviceofferingid = "" ∧
    (deployParamsFor (getStateFromOpts opts).1.acsSettings (getStateFromOpts opts).1).templateid = "" ∧
    (deployParamsFor (getStateFromOpts opts).1.acsSettings (getStateFromOpts opts).1).zoneid = "" ∧
    (deployParamsFor (getStateFromOpts opts).1.acsSettings (getStateFromOpts opts).1).projectid = some "" ∧
    (deployParamsFor (getStateFromOpts opts).1.acsSettings (getStateFromOpts opts).1).networkids = some [""] :=
  ⟨rfl, rfl, rfl, rfl, rfl, rfl, rfl, rfl, rfl, rfl, rfl, rfl, rfl⟩

/-- C3: for every settings value and state, the deploy-virtual-machine
request built by `createInstance` has name and display name equal to the
cluster name, service-offering id, template id and zone id equal to the
configured ones, and network ids equal to the single-element list holding
the configured network id. -/
theorem deployParamsFor_fields (c : AcsSettings) (s : state) :
    (deployParamsFor c s).name = some s.ClusterName ∧
    (deployParamsFor c s).displayname = some s.ClusterName ∧
    (deployParamsFor c s).serviceofferingid = c.ServiceOffering ∧
    (deployParamsFor c s).templateid = c.TemplateID ∧
    (deployParamsFor c s).zoneid = c.ZoneID ∧
    (deployParamsFor c s).networkids = some [c.NetworkID] :=
  ⟨rfl, rfl, rfl, rfl, rfl, rfl⟩

/-- C4: for every option bag, `getStateFromOpts` returns without error,
and each declared field whose option names are absent gets the zero value
of its type; in particular the scenario bag (cluster-name "demo", the
three credentials, no node-count) yields InitialNodeCount = 0 and
ClusterName = "demo". -/
theorem getStateFromOpts_zero_defaults :
    (∀ opts : DriverOptions,
      (getStateFromOpts opts).2 = none ∧
      (opts.stringOptions.lookup "cluster-name" = none →
        opts.stringOptions.lookup "ClusterName" = none →
        (getStateFromOpts opts).1.ClusterName = "") ∧
      (opts.stringOptions.lookup "description" = none →
        opts.stringOptions.lookup "Description" = none →
        (getStateFromOpts opts).1.Description = "") ∧
      (opts.stringOptions.lookup "cloudstack-endpoint" = none →
        opts.stringOptions.lookup "CloudstackEndPoint" = none →
        (getStateFromOpts opts).1.acsSettings.config.EndPoint = "") ∧
      (opts.stringOptions.lookup "cloudstack-access" = none →
        (getStateFromOpts opts).1.acsSettings.config.Access = "") ∧
      (opts.stringOptions.lookup "cloudstack-secret" = none →
        (getStateFromOpts opts).1.acsSettings.config.Secret = "") ∧
      (opts.intOptions.lookup "node-count" = none →
        opts.intOptions.lookup "InitialNodeCount" = none →
        (getStateFromOpts opts).1.InitialNodeCount = 0)) ∧
    (getStateFromOpts demoOpts).1.InitialNodeCount = 0 ∧
    (getStateFromOpts demoOpts).1.ClusterName = "demo" ∧
    (getStateFromOpts demoOpts).2 = none := by
  refine ⟨fun opts => ⟨rfl, ?_, ?_, ?_, ?_, ?_, ?_⟩, by decide, by decide, rfl⟩
  all_goals
    intro h1
    first
    | (intro h2; simp [getStateFromOpts, getStringOption, getIntOption, h1, h2])
    | simp [getStateFromOpts, getStringOption, getIntOption, h1]

/-- Witness for C4: the empty option bag, where every declared field is
absent and gets its zero value. -/
theorem getStateFromOpts_zero_defaults_witness :
    (DriverOptions.mk [] []).stringOptions.lookup "cluster-name" = none ∧
    (getStateFromOpts (DriverOptions.mk [] [])).1.ClusterName = "" ∧
    (getStateFromOpts (DriverOptions.mk [] [])).1.InitialNodeCount = 0 :=
  ⟨rfl, (getStateFromOpts_zero_defaults.1 (DriverOptions.mk [] [])).2.1 rfl rfl,
    (getStateFromOpts_zero_defaults.1 (DriverOptions.mk [] [])).2.2.2.2.2.2 rfl rfl⟩

/-- C5: for every input, each of Remove, SetClusterSize, ETCDSave and
ETCDRemoveSnapshot returns a non-nil error whose message is
"Not implemented" and never returns success. -/
theorem stubs_not_implemented (info : ClusterInfo) (count : NodeCount)
    (opts : DriverOptions) (snapshotName : String) :
    Remove info = some "Not implemented" ∧
    SetClusterSize info count = some "Not implemented" ∧
    ETCDSave info opts snapshotName = some "Not implemented" ∧
    ETCDRemoveSnapshot info opts snapshotName = some "Not implemented" ∧
    Remove info ≠ none ∧
    SetClusterSize info count ≠ none ∧
    ETCDSave info opts snapshotName ≠ none ∧
    ETCDRemoveSnapshot info opts snapshotName ≠ none := by
  refine ⟨rfl, rfl, rfl, rfl, ?_, ?_, ?_, ?_⟩ <;>
    simp [Remove, SetClusterSize, ETCDSave, ETCDRemoveSnapshot]

/-- C6: for every ClusterInfo and every driver-options value, Update and
PostCheck return exactly the input ClusterInfo together with a nil
error. -/
theorem update_postcheck_passthrough (info : ClusterInfo) (opts : DriverOptions) :
    Update info opts = (info, none) ∧ PostCheck info = (info, none) :=
  ⟨rfl, rfl⟩

/-- C7: for every input, Create returns a nil error and a freshly
constructed empty ClusterInfo, independent of the ClusterInfo argument,
which it ignores. -/
theorem create_never_errors
    (deploy : DeployVirtualMachineParams → Except String DeployVirtualMachineResponse)
    (opts : DriverOptions) (info info2 : ClusterInfo) :
    (Create deploy opts info).err = none ∧
    (Create deploy opts info).info = some ({} : ClusterInfo) ∧
    Create deploy opts info2 = Create deploy opts info := by
  refine ⟨?_, ?_, rfl⟩ <;>
    simp [Create, getStateFromOpts_noerr, createInstance_err_none]

/-- C8: for every settings value, the connection factory `acsConn`
returns a non-nil client handle and a nil error. -/
theorem acsConn_total (c : AcsSettings) :
    (acsConn c).1.isSome = true ∧ (acsConn c).2 = none :=
  ⟨rfl, rfl⟩

/-- C9: for every settings value, the client built by `acsConn` carries
the configured endpoint and credentials and has TLS certificate
verification disabled: the verify-ssl argument is the fixed constant
false, whatever the configuration. -/
theorem acsConn_disables_tls (c : AcsSettings) :
    (acsConn c).1 = some { apiURL := c.config.EndPoint, apiKey := c.config.Access,
                           secretKey := c.config.Secret, verifySSL := false } ∧
    (∀ client : CloudStackClient, (acsConn c).1 = some client → client.verifySSL = false) := by
  refine ⟨rfl, ?_⟩
  intro client h
  cases h
  rfl

/-- Witness for C9: the default settings yield a concrete client with TLS
verification disabled. -/
theorem acsConn_disables_tls_witness :
    (acsConn {}).1 = some { apiURL := "", apiKey := "", secretKey := "", verifySSL := false } ∧
    ({ apiURL := "", apiKey := "", secretKey := "", verifySSL := false } :
      CloudStackClient).verifySSL = false :=
  ⟨(acsConn_disables_tls {}).1, (acsConn_disables_tls {}).2 _ (acsConn_disables_tls {}).1⟩

/-- C10: the driver returned by NewDriver advertises exactly the four
capabilities get-version, set-version, get-cluster-size and
set-cluster-size, mapped to true, and no others. -/
theorem newDriver_capabilities :
    NewDriver.driverCapabilities.capabilityMap =
      [(SetClusterSizeCapability, true), (GetClusterSizeCapability, true),
       (SetVersionCapability, true), (GetVersionCapability, true)] ∧
    (∀ k v, (k, v) ∈ NewDriver.driverCapabilities.capabilityMap ↔
      (v = true ∧ (k = GetVersionCapability ∨ k = SetVersionCapability ∨
        k = GetClusterSizeCapability ∨ k = SetClusterSizeCapability))) := by
  refine ⟨rfl, ?_⟩
  intro k v
  simp [NewDriver, AddCapability, GetVersionCapability, SetVersionCapability,
    GetClusterSizeCapability, SetClusterSizeCapability]
  aesop

end AcsDriver
